import Mathlib

/-!
Verification development for the `wordseq` daily word-puzzle frontend.

The repository source under scrutiny is `src/frontend/src/hooks/gameHooks.ts`,
the React hook layer that owns the UI-visible game state, funnels player
actions into the core engine, and manages the daily-completion summaries.
The core engine (`src/frontend/src/core/gameLogic.ts`), the storage module
(`src/frontend/src/core/storage.ts`) and the helpers
(`src/frontend/src/utils/gameHelpers.ts`) are not part of the provided
source tree; where a claim depends on them they are modelled from the
specification, and every such definition carries a doc comment starting
with `Modelled from the spec:`.

All definitions are executable; machine integers do not occur (all counters
are small naturals).
-/

namespace Wordseq

/-- Cell coordinates in the letter grid, 0-indexed, as in
`CellCoordinates {row, col}` of the data model. -/
structure CellCoordinates where
  row : Nat
  col : Nat
  deriving DecidableEq, Repr

/-- Modelled from the spec: `areAdjacent` lives in
`src/frontend/src/utils/gameHelpers.ts`, which is not under `src/`.
Spec §3: two coordinates are adjacent iff they differ by exactly 1 in
exactly one axis (no diagonals). -/
def areAdjacent (c1 c2 : CellCoordinates) : Bool :=
  (c1.row = c2.row ∧ (c1.col + 1 = c2.col ∨ c2.col + 1 = c1.col)) ∨
  (c1.col = c2.col ∧ (c1.row + 1 = c2.row ∨ c2.row + 1 = c1.row))

/-- A child move recorded on an exploration-tree edge: the unordered cell
pair that is swapped and the word(s) the swap forms. -/
structure Move where
  cellA : CellCoordinates
  cellB : CellCoordinates
  words : List String
  deriving DecidableEq, Repr

/-- The exploration tree: an externally supplied, read-only tree in which
each node carries the set of child moves still reachable (spec §3,
`ExplorationNode`).  Depth and the leaf flag are derived. -/
inductive ExplorationNode : Type where
  | mk : List (Move × ExplorationNode) → ExplorationNode
  deriving Repr

/-- Child list of an exploration node. -/
def nodeChildren : ExplorationNode → List (Move × ExplorationNode)
  | .mk cs => cs

/-- A node is a leaf iff it has no child moves (spec glossary). -/
def isLeaf (n : ExplorationNode) : Bool :=
  (nodeChildren n).isEmpty

mutual

/-- Depth of the deepest node below this node (root itself is depth 0). -/
def nodeDepth : ExplorationNode → Nat
  | .mk cs => childListDepth cs

/-- Deepest depth reachable through a list of child edges. -/
def childListDepth : List (Move × ExplorationNode) → Nat
  | [] => 0
  | c :: rest => max (nodeDepth c.2 + 1) (childListDepth rest)

end

/-- A history entry (spec §3 `HistoryEntry`): the move, the words it
formed, and the grid snapshot after the move. -/
structure HistoryEntry where
  move : CellCoordinates × CellCoordinates
  wordsFormedByMove : List String
  gridAfterMove : List (List Char)
  deriving DecidableEq, Repr

/-- Per-level immutable payload (spec §3 `GameData`). -/
structure GameData where
  initialGrid : List (List Char)
  explorationTree : ExplorationNode
  wordLength : Nat
  maxDepthReached : Nat
  deriving Repr

/-- Closed enumeration of difficulty levels (spec §6). -/
inductive DifficultyLevel : Type where
  | normal
  | hard
  | impossible
  deriving DecidableEq, Repr

/-- Mutable core game state (spec §3 `CoreGameState`), owned by the
`GameLogic` engine and mirrored into React state by the hook layer. -/
structure CoreGameState where
  grid : List (List Char)
  currentNode : ExplorationNode
  currentDepth : Nat
  history : List HistoryEntry
  hasDeviated : Bool
  turnFailedAttempts : Nat
  isGameOver : Bool
  gameData : GameData
  deriving Repr

/-- Cell lookup in a grid, with an out-of-range default. -/
def getCell (g : List (List Char)) (c : CellCoordinates) : Char :=
  (g.getD c.row []).getD c.col ' '

/-- Pure single-cell update (copy-on-write, as the Grid Model's
swap-and-copy requires). -/
def setCell (g : List (List Char)) (c : CellCoordinates) (ch : Char) :
    List (List Char) :=
  g.set c.row ((g.getD c.row []).set c.col ch)

/-- Pure swap-and-copy of two cells (spec §2, Grid Model). -/
def swapCells (g : List (List Char)) (c1 c2 : CellCoordinates) :
    List (List Char) :=
  let a := getCell g c1
  let b := getCell g c2
  setCell (setCell g c1 b) c2 a

/-- Whether a child move matches a candidate swap: the unordered cell pair
equals the child's recorded pair, direction-independent (spec §4.1). -/
def moveMatches (m : Move) (c1 c2 : CellCoordinates) : Bool :=
  (m.cellA = c1 ∧ m.cellB = c2) ∨ (m.cellA = c2 ∧ m.cellB = c1)

/-- Modelled from the spec: tree validation of a candidate swap against the
current node's child moves (`GameLogic` in
`src/frontend/src/core/gameLogic.ts` is not under `src/`).  Spec §4.1: on
match, return the corresponding child node and its move record. -/
def findMatchingChild (n : ExplorationNode) (c1 c2 : CellCoordinates) :
    Option (Move × ExplorationNode) :=
  (nodeChildren n).find? (fun mc => moveMatches mc.1 c1 c2)

/-- Result record of a swap attempt (spec §4.2 `performSwap`). -/
structure SwapResult where
  success : Bool
  newState : Option CoreGameState
  wordsFormed : Option (List String)
  moveDetails : Option (CellCoordinates × CellCoordinates)
  message : Option String

/-- A rejected swap leaves everything untouched except the consecutive
failed-attempt counter (spec §3 invariant on `turnFailedAttempts`, and the
§8 scenario: rejected swap increments it by 1). -/
def bumpFailed (s : CoreGameState) : CoreGameState :=
  { s with turnFailedAttempts := s.turnFailedAttempts + 1 }

/-- Modelled from the spec: `GameLogic.performSwap`
(`src/frontend/src/core/gameLogic.ts` is not under `src/`).  Spec §4.2:
fails if the machine is already game-over (the hook layer compares the
message against the literal "Game is over.", which pins that text), or if
the cells are not adjacent (adjacency violations are rejected before tree
validation, §4.1; the adjacency message text follows the one the hook's
drop path uses), or if the swap does not match a child move of
`currentNode`.  On success it swaps the grid, appends a history entry,
advances the node, increments the depth, resets the failed-attempt
counter, and sets `isGameOver` if the new node is a leaf. -/
def corePerformSwap (s : CoreGameState) (c1 c2 : CellCoordinates) :
    SwapResult × CoreGameState :=
  if s.isGameOver then
    (⟨false, none, none, none, some "Game is over."⟩, bumpFailed s)
  else if ¬ areAdjacent c1 c2 then
    (⟨false, none, none, none, some "Must swap adjacent cells."⟩, bumpFailed s)
  else
    match findMatchingChild s.currentNode c1 c2 with
    | none =>
        (⟨false, none, none, none, some "Not a valid move. Try again!"⟩,
         bumpFailed s)
    | some (m, child) =>
        let newGrid := swapCells s.grid c1 c2
        let entry : HistoryEntry :=
          { move := (c1, c2), wordsFormedByMove := m.words,
            gridAfterMove := newGrid }
        let s' : CoreGameState :=
          { s with grid := newGrid,
                   currentNode := child,
                   currentDepth := s.currentDepth + 1,
                   history := s.history ++ [entry],
                   turnFailedAttempts := 0,
                   isGameOver := isLeaf child }
        (⟨true, some s', some m.words, some (c1, c2), none⟩, s')

/-- Core state after an attempted swap (successful or not). -/
def attemptState (s : CoreGameState) (p : CellCoordinates × CellCoordinates) :
    CoreGameState :=
  (corePerformSwap s p.1 p.2).2

/-- The attempt at this pair of cells is rejected by the core. -/
def attemptRejected (s : CoreGameState)
    (p : CellCoordinates × CellCoordinates) : Prop :=
  (corePerformSwap s p.1 p.2).1.success = false

/-- Modelled from the spec: `GameLogic.forceGameOver`
(`src/frontend/src/core/gameLogic.ts` is not under `src/`).  Spec §4.2:
sets `isGameOver = true` without altering `grid`, `history`, or
`currentDepth`. -/
def forceGameOver (s : CoreGameState) : CoreGameState :=
  { s with isGameOver := true }

/-- Best child of a node for hinting: the child whose subtree reaches the
greatest depth, ties broken deterministically by keeping the earliest
child in the node's canonical order (spec §4.2
`calculateHintCoordinates`). -/
def bestChild : List (Move × ExplorationNode) →
    Option (Move × ExplorationNode)
  | [] => none
  | c :: rest =>
      some (rest.foldl
        (fun best cand =>
          if nodeDepth cand.2 > nodeDepth best.2 then cand else best) c)

/-- Modelled from the spec: `GameLogic.calculateHintCoordinates`
(`src/frontend/src/core/gameLogic.ts` is not under `src/`).  Spec §4.2:
picks the child move preserving the greatest reachable depth and returns
its two cell coordinates; returns the empty sequence on a leaf. -/
def calculateHintCoordinates (n : ExplorationNode) : List CellCoordinates :=
  match bestChild (nodeChildren n) with
  | none => []
  | some c => [c.1.cellA, c.1.cellB]

mutual

/-- Words along the single deepest path below a node, used by the
chain analyzer's fallback (spec §4.3). -/
def deepestPathWords : ExplorationNode → List String
  | .mk cs => (bestPathOfChildren cs).2

/-- Depth and word chain of the deepest path through a list of child
edges; ties keep the earliest child. -/
def bestPathOfChildren : List (Move × ExplorationNode) → Nat × List String
  | [] => (0, [])
  | (m, child) :: rest =>
      let cand : Nat × List String :=
        (nodeDepth child + 1, m.words ++ deepestPathWords child)
      let best := bestPathOfChildren rest
      if best.1 > cand.1 then best else cand

end

/-- Walk the tree along the moves recorded in a history; `none` when some
recorded move has no matching child (the player deviated). -/
def followHistoryNode : ExplorationNode → List HistoryEntry →
    Option ExplorationNode
  | n, [] => some n
  | n, e :: rest =>
      match findMatchingChild n e.move.1 e.move.2 with
      | some (_, child) => followHistoryNode child rest
      | none => none

/-- Modelled from the spec: `findLongestWordChain` from
`src/frontend/src/utils/gameHelpers.ts`, which is not under `src/`.
Spec §4.3: the word sequence of the deepest-reaching path from the root
consistent with the moves already played while the player is on-path,
falling back to the tree's single deepest path when the played history
does not follow the tree (or trivially when no moves were played). -/
def findLongestWordChain (root : ExplorationNode)
    (history : List HistoryEntry) : List String :=
  match followHistoryNode root history with
  | some n => (history.flatMap (fun e => e.wordsFormedByMove))
      ++ deepestPathWords n
  | none => deepestPathWords root

/-- Daily per-difficulty completion flags, mirroring the hook's
`dailyProgress` record (`gameHooks.ts` line 45). -/
structure DailyProgressFlags where
  normal : Bool
  hard : Bool
  impossible : Bool
  deriving DecidableEq, Repr

/-- Daily completion summary (spec §6, and `LevelCompletionSummary` from
the storage module), produced by the summary-saving effect
(`gameHooks.ts` lines 332-340). -/
structure LevelCompletionSummary where
  history : List HistoryEntry
  score : Nat
  playerWords : List String
  maxScore : Nat
  optimalPathWords : List String
  difficultyForSummary : DifficultyLevel
  finalGrid : List (List Char)
  deriving Repr

/-- Entry stored per difficulty in the daily progress store
(`dailyProgressDataFromStorage[difficulty]` in `gameHooks.ts`). -/
structure DiffEntry where
  completed : Bool
  summary : Option LevelCompletionSummary
  deriving Repr

/-- Per-date record of the daily progress store, one optional entry per
difficulty. -/
def DailyProgressData : Type := DifficultyLevel → Option DiffEntry

/-- Modelled from the spec: the persistence medium
(`src/frontend/src/core/storage.ts` is not under `src/`) is key-value
storage; daily completion summaries are keyed by calendar date (here the
formatted date string) and difficulty (spec §6). -/
def Storage : Type := String → DailyProgressData

/-- The React state owned by the hook (`gameHooks.ts` lines 41-83),
restricted to the fields the verified behaviours read or write. -/
structure UIState where
  loading : Bool
  error : Option String
  currentDate : Option String
  difficulty : DifficultyLevel
  dailyProgress : DailyProgressFlags
  grid : List (List Char)
  currentPossibleMoves : List Move
  currentDepth : Nat
  history : List HistoryEntry
  hasDeviated : Bool
  turnFailedAttempts : Nat
  isCoreGameOver : Bool
  coreGameData : Option GameData
  selectedCell : Option CellCoordinates
  draggedCell : Option CellCoordinates
  hoveredCell : Option CellCoordinates
  isInvalidMove : Bool
  invalidMoveMessage : String
  animating : Bool
  hintCells : List CellCoordinates
  isDisplayGameOver : Bool
  hasAcknowledgedGameOver : Bool
  showEndGamePanelOverride : Bool

/-- Mirror of `updateReactStateFromCore` (`gameHooks.ts` lines 85-105):
copies the core snapshot into the React state, or resets the mirrored
fields to their defaults when passed `null`. -/
def updateReactStateFromCore (ui : UIState) (core : Option CoreGameState) :
    UIState :=
  match core with
  | some c =>
      { ui with grid := c.grid,
                currentPossibleMoves := (nodeChildren c.currentNode).map Prod.fst,
                currentDepth := c.currentDepth,
                history := c.history,
                hasDeviated := c.hasDeviated,
                turnFailedAttempts := c.turnFailedAttempts,
                isCoreGameOver := c.isGameOver,
                coreGameData := some c.gameData }
  | none =>
      { ui with grid := [[]],
                currentPossibleMoves := [],
                currentDepth := 0,
                history := [],
                hasDeviated := false,
                turnFailedAttempts := 0,
                isCoreGameOver := false,
                coreGameData := none }

/-- Mirror of `liveMaxDepthAttainable` (`gameHooks.ts` line 120):
`coreGameData?.maxDepthReached || 0`. -/
def liveMaxDepthAttainable (ui : UIState) : Nat :=
  match ui.coreGameData with
  | some gd => gd.maxDepthReached
  | none => 0

/-- Mirror of `liveOptimalPathWords` (`gameHooks.ts` lines 107-112). -/
def liveOptimalPathWords (ui : UIState) : List String :=
  match ui.coreGameData with
  | some gd => findLongestWordChain gd.explorationTree ui.history
  | none => []

/-- Insertion into a JS `Set` materialised as a first-occurrence list. -/
def insertUnique (acc : List String) (w : String) : List String :=
  if w ∈ acc then acc else acc ++ [w]

/-- Mirror of `livePlayerUniqueWordsFound` (`gameHooks.ts` lines 114-118):
the set of words formed across all history entries, in insertion order. -/
def uniquePlayerWords (history : List HistoryEntry) : List String :=
  history.foldl (fun acc e => e.wordsFormedByMove.foldl insertUnique acc) []

/-- Outcome of funnelling a swap attempt through the hook layer: whether
the core engine was invoked, the updated React state, the updated core
state, and whether the wrong-move wiggle feedback fired. -/
structure HookSwapOutcome where
  coreInvoked : Bool
  ui : UIState
  core : CoreGameState
  wiggled : Bool

/-- Mirror of the hook's `performSwap` callback (`gameHooks.ts` lines
386-430).  The guard on line 388 ignores the attempt entirely (no core
call, no state change) while the end-game override is shown, the
game-over display is up, no level data is loaded, an animation is still
settling, the level is loading, or the hook is in an error state.
Otherwise the selection state is cleared, the core `performSwap` runs and
its snapshot is mirrored; a success starts the swap animation and clears
the invalid-move indicator; a failure sets the indicator with the core's
message only when the mirrored `isCoreGameOver` flag is false, and fires
the wiggle only when the message is not "Game is over.".  The
timer-driven word-highlight callback is asynchronous presentation work
and is outside this model. -/
def hookPerformSwap (ui : UIState) (core : CoreGameState)
    (c1 c2 : CellCoordinates) : HookSwapOutcome :=
  if ui.showEndGamePanelOverride ∨ ui.isDisplayGameOver ∨
      ui.coreGameData.isNone ∨ ui.animating ∨ ui.loading ∨
      ui.error.isSome then
    ⟨false, ui, core, false⟩
  else
    let ui1 := { ui with selectedCell := none, draggedCell := none,
                         hoveredCell := none }
    let rc := corePerformSwap core c1 c2
    let ui2 := updateReactStateFromCore ui1 (some (rc.1.newState.getD rc.2))
    if rc.1.success then
      ⟨true,
       { ui2 with animating := true, isInvalidMove := false,
                  invalidMoveMessage := "" },
       rc.2, false⟩
    else if ¬ ui.isCoreGameOver then
      ⟨true,
       { ui2 with isInvalidMove := true,
                  invalidMoveMessage := rc.1.message.getD "Invalid Move!" },
       rc.2, decide (rc.1.message ≠ some "Game is over.")⟩
    else
      ⟨true, ui2, rc.2, false⟩

/-- Mirror of `handleDrop` (`gameHooks.ts` lines 460-478): the drop path
that funnels into `performSwap`.  Blocked attempts and same-cell drops
only clear the drag state; a non-adjacent pair is rejected before the
core is ever consulted, with the adjacency-specific message (and wiggle)
shown only when the mirrored `isCoreGameOver` flag is false; otherwise
the pair is funnelled into the hook's `performSwap`. -/
def handleDrop (ui : UIState) (core : CoreGameState)
    (target : CellCoordinates) : HookSwapOutcome :=
  if ui.showEndGamePanelOverride ∨ ui.isDisplayGameOver ∨
      ui.draggedCell.isNone ∨ ui.loading ∨ ui.animating ∨
      ui.error.isSome then
    ⟨false, { ui with draggedCell := none, hoveredCell := none }, core, false⟩
  else
    let src := ui.draggedCell.getD ⟨0, 0⟩
    let ui1 := { ui with hoveredCell := none }
    if src = target then
      ⟨false, { ui1 with draggedCell := none }, core, false⟩
    else if ¬ areAdjacent src target then
      if ¬ ui.isCoreGameOver then
        ⟨false,
         { ui1 with isInvalidMove := true,
                    invalidMoveMessage := "Must swap adjacent cells.",
                    draggedCell := none },
         core, true⟩
      else
        ⟨false, { ui1 with draggedCell := none }, core, false⟩
    else
      let out := hookPerformSwap ui1 core src target
      { out with ui := { out.ui with draggedCell := none } }

/-- Mirror of `masterResetGameStates` (`gameHooks.ts` lines 167-191):
clears the mirrored core state, the interaction state, all transient
feedback, and the game-over display flags. -/
def masterResetUI (ui : UIState) : UIState :=
  { updateReactStateFromCore ui none with
      isInvalidMove := false,
      invalidMoveMessage := "",
      selectedCell := none,
      hoveredCell := none,
      draggedCell := none,
      hintCells := [],
      animating := false,
      isDisplayGameOver := false,
      hasAcknowledgedGameOver := false,
      showEndGamePanelOverride := false }

/-- Outcome of a difficulty-switch attempt through `handlePlayMode`. -/
inductive PlayModeOutcome : Type where
  | ignored
  | rejected (msg : String)
  | accepted
  deriving DecidableEq, Repr

/-- Mirror of `handlePlayMode` (`gameHooks.ts` lines 552-564): the calling
layer's progression gating.  Switching to `hard` is rejected with a
message unless normal is complete; switching to `impossible` is rejected
unless both normal and hard are complete; an accepted switch sets the
loading flag, changes the difficulty and master-resets the game state
(the transient 3-second clearing of the rejection message is timer work
outside this model). -/
def handlePlayMode (ui : UIState) (newDifficulty : DifficultyLevel) :
    PlayModeOutcome × UIState :=
  if ui.showEndGamePanelOverride ∨ ui.difficulty = newDifficulty ∨
      ui.animating ∨ ui.error.isSome then
    (.ignored, ui)
  else if newDifficulty = .hard ∧ ¬ ui.dailyProgress.normal then
    (.rejected "Complete Normal mode first!",
     { ui with isInvalidMove := true,
               invalidMoveMessage := "Complete Normal mode first!" })
  else if newDifficulty = .impossible ∧
      (¬ ui.dailyProgress.normal ∨ ¬ ui.dailyProgress.hard) then
    (.rejected "Complete Normal & Hard modes first!",
     { ui with isInvalidMove := true,
               invalidMoveMessage := "Complete Normal & Hard modes first!" })
  else
    (.accepted,
     masterResetUI { ui with loading := true, difficulty := newDifficulty })

/-- The `initialGrid` field of a fetched level payload as raw JSON: either
an actual array of rows or some non-array value. -/
inductive GridJson : Type where
  | arr (rows : List (List Char))
  | nonArray
  deriving DecidableEq, Repr

/-- A fetched level payload before validation; `initialGrid` is `none`
when the field is absent or null (falsy in the source's check). -/
structure FetchedGameData where
  initialGrid : Option GridJson
  deriving DecidableEq, Repr

/-- Mirror of the payload validation in `loadLevelDataInternal`
(`gameHooks.ts` lines 215-218): a missing payload, a missing/falsy
`initialGrid`, or a non-array `initialGrid` throws the corrupted-level
error for the current difficulty name. -/
def validateLevelPayload (diff : String) (fetched : Option FetchedGameData) :
    Except String FetchedGameData :=
  match fetched with
  | none => .error ("Level data for " ++ diff ++ " is corrupted.")
  | some d =>
      match d.initialGrid with
      | none => .error ("Level data for " ++ diff ++ " is corrupted.")
      | some .nonArray => .error ("Level data for " ++ diff ++ " is corrupted.")
      | some (.arr _) => .ok d

/-- The fetched payload fails the source's integrity check. -/
def malformedPayload (fetched : Option FetchedGameData) : Prop :=
  fetched = none ∨ fetched = some ⟨none⟩ ∨ fetched = some ⟨some .nonArray⟩

/-- Mirror of the catch handler of `loadLevelDataInternal`
(`gameHooks.ts` lines 259-268): the error message is surfaced, the
mirrored core state is reset to the safe defaults, the game-over display
is cleared, and loading ends. -/
def loadFailureState (ui : UIState) (msg : String) : UIState :=
  { updateReactStateFromCore ui none with
      error := some msg,
      isDisplayGameOver := false,
      hasAcknowledgedGameOver := false,
      loading := false }

/-- Saved in-progress record as consumed by the load path (spec §6); the
content-hash check happens inside the storage module, which returns no
record when the hash is stale. -/
structure SavedProgress where
  grid : List (List Char)
  history : List HistoryEntry
  currentDepth : Nat
  hasDeviated : Bool
  turnFailedAttempts : Nat
  deriving Repr

/-- Result of the game-over decision taken right after a level loads. -/
structure LoadDecision where
  finalCore : CoreGameState
  forcedInvoked : Bool
  isDisplayGameOver : Bool
  hasAcknowledgedGameOver : Bool

/-- Mirror of the daily-completion branch of `loadLevelDataInternal`
(`gameHooks.ts` lines 228-257), taking as inputs the core state produced
by `loadLevel`, the saved-progress record the storage returned, and
whether the daily-progress store marks this difficulty completed.  When
the level is already completed and either a non-reset in-progress save
was restored or the restored state is itself game over, the state is
forced terminal (invoking `forceGameOver` when needed) and the game-over
display comes up pre-acknowledged; a completed level restored at a fresh
or reset save instead stays playable. -/
def loadGameOverDecision (initialCore : CoreGameState)
    (saved : Option SavedProgress) (isDailyCompleted : Bool) : LoadDecision :=
  let nonReset : Bool :=
    match saved with
    | some sp => decide (0 < sp.currentDepth) || decide (sp.history ≠ [])
    | none => false
  if isDailyCompleted then
    if nonReset || initialCore.isGameOver then
      if initialCore.isGameOver then
        ⟨initialCore, false, true, true⟩
      else
        ⟨forceGameOver initialCore, true, true, true⟩
    else
      ⟨initialCore, false, false, false⟩
  else
    ⟨initialCore, false, initialCore.isGameOver, false⟩

/-- Mirror of the `canSaveSummary` guard (`gameHooks.ts` lines 312-320):
the game-over display is up and unacknowledged, the override panel is
not shown, the score equals the (positive) maximum attainable depth, a
date and level data are present, the grid is non-empty, and the hook is
neither loading nor in error. -/
def canSaveSummary (ui : UIState) : Bool :=
  ui.isDisplayGameOver && !ui.hasAcknowledgedGameOver &&
  !ui.showEndGamePanelOverride &&
  decide (ui.currentDepth = liveMaxDepthAttainable ui) &&
  decide (0 < liveMaxDepthAttainable ui) &&
  ui.currentDate.isSome && ui.coreGameData.isSome &&
  decide (0 < ui.grid.length) && decide (0 < (ui.grid.headD []).length) &&
  !ui.loading && ui.error.isNone

/-- The summary record built by the summary-saving effect
(`gameHooks.ts` lines 332-340). -/
def mkSummary (ui : UIState) : LevelCompletionSummary :=
  { history := ui.history,
    score := ui.currentDepth,
    playerWords := uniquePlayerWords ui.history,
    maxScore := liveMaxDepthAttainable ui,
    optimalPathWords := liveOptimalPathWords ui,
    difficultyForSummary := ui.difficulty,
    finalGrid := ui.grid }

/-- Mirror of the summary-saving effect (`gameHooks.ts` lines 311-357)
acting on the daily-progress store: when `canSaveSummary` holds and no
completed summary is already stored for this date and difficulty, the
entry at the current date key and difficulty is marked completed with the
freshly built summary; every other key is left untouched.  (The effect's
mirroring into the `dailyProgress` flags is presentation state and not
part of the store.) -/
def saveSummaryEffect (ui : UIState) (store : Storage) : Storage :=
  match ui.currentDate with
  | none => store
  | some dateKey =>
      if canSaveSummary ui then
        let data := store dateKey
        let alreadyStored : Bool :=
          match data ui.difficulty with
          | some e => e.completed && e.summary.isSome
          | none => false
        if alreadyStored then store
        else
          let entry : DiffEntry :=
            { completed := true, summary := some (mkSummary ui) }
          fun d =>
            if d = dateKey then
              fun diff => if diff = ui.difficulty then some entry else data diff
            else store d
      else store

/-- Mirror of the automatic hint effect (`gameHooks.ts` lines 359-375) as
the hint-cell state it leaves behind: on impossible difficulty, in error
state, or with no level data it clears the hints and returns early;
otherwise, once three swap attempts have failed this turn and no
game-over display, override panel, loading phase or empty grid blocks
it, it shows the computed hint coordinates when they are non-empty. -/
def autoHintEffect (ui : UIState) (coords : List CellCoordinates) :
    List CellCoordinates :=
  if ui.difficulty = .impossible ∨ ui.error.isSome ∨ ui.coreGameData.isNone then
    []
  else if 3 ≤ ui.turnFailedAttempts ∧ ¬ ui.isDisplayGameOver ∧
      ¬ ui.showEndGamePanelOverride ∧ ¬ ui.loading ∧
      0 < ui.grid.length ∧ 0 < (ui.grid.headD []).length then
    if coords ≠ [] then coords else ui.hintCells
  else ui.hintCells

/-- Mirror of the `turnFailedAttempts >= 3` eligibility line of the
automatic hint effect (`gameHooks.ts` line 365). -/
def hintEligible (ui : UIState) : Bool :=
  decide (3 ≤ ui.turnFailedAttempts) && !ui.isDisplayGameOver &&
  !ui.showEndGamePanelOverride && !ui.loading &&
  decide (0 < ui.grid.length) && decide (0 < (ui.grid.headD []).length)

/-- End-game panel row (`LevelResultData` in `gameHooks.ts` lines 23-29). -/
structure LevelResultData where
  history : List HistoryEntry
  score : Nat
  maxScore : Nat
  optimalPathWords : List String
  levelCompleted : Bool
  deriving Repr

/-- Mirror of the stored-summary rows of the end-game panel memo
(`gameHooks.ts` lines 625 and 647-650): a stored level counts as
completed iff its score equals its maximum score. -/
def resultFromSummary (s : LevelCompletionSummary) : LevelResultData :=
  { history := s.history, score := s.score, maxScore := s.maxScore,
    optimalPathWords := s.optimalPathWords,
    levelCompleted := decide (s.score = s.maxScore) }

/-- Mirror of `liveDataForCurrentDifficulty` (`gameHooks.ts` lines
632-637): the live row counts as completed iff the current depth equals
the maximum attainable depth and that maximum is positive. -/
def liveDataForCurrentDifficulty (ui : UIState) : LevelResultData :=
  { history := ui.history, score := ui.currentDepth,
    maxScore := liveMaxDepthAttainable ui,
    optimalPathWords := liveOptimalPathWords ui,
    levelCompleted := decide (ui.currentDepth = liveMaxDepthAttainable ui) &&
      decide (0 < liveMaxDepthAttainable ui) }

/-- Abstract hook state for tracking the displayed hint cells across the
hook's lifecycle: the current difficulty, whether a level load is in
flight, whether the hook is in error state, and the displayed hints. -/
structure HState where
  difficulty : DifficultyLevel
  loading : Bool
  errored : Bool
  hintCells : List CellCoordinates
  deriving DecidableEq, Repr

/-- Auto-hint effect (`gameHooks.ts` lines 359-375) on the abstract hint
state: cleared outright on impossible difficulty, in error state, or
with no level data (`noData`); otherwise shown when the eligibility
conditions hold (`eligible` bundles the failed-attempt threshold,
game-over display, override and grid conditions), the load is settled,
and the computed coordinates are non-empty. -/
def hAutoHint (s : HState) (noData eligible : Bool)
    (coords : List CellCoordinates) : List CellCoordinates :=
  if s.difficulty = .impossible ∨ s.errored ∨ noData then []
  else if eligible ∧ s.loading = false ∧ coords ≠ [] then coords
  else s.hintCells

/-- Transitions of the hook that touch the difficulty, the loading flag or
the displayed hint cells (`gameHooks.ts`): the mount-time difficulty
initialisation (lines 141-165, which runs while the initial load flag is
still up), the start (lines 201-205) and finish (lines 259-267) of a
level load, the automatic hint effect (lines 359-375), the hint button
(lines 566-574), the actions that clear hints (drag start, reset, undo,
solution view, master reset, and the hint timeout), and an accepted
difficulty switch (lines 552-564). -/
inductive HintStep : HState → HState → Prop where
  | initDifficulty (s : HState) (d : DifficultyLevel)
      (hload : s.loading = true) :
      HintStep s { s with difficulty := d }
  | loadStart (s : HState) :
      HintStep s { s with loading := true, errored := false, hintCells := [] }
  | loadFinish (s : HState) (e : Bool) :
      HintStep s { s with loading := false, errored := e }
  | autoHint (s : HState) (noData eligible : Bool)
      (coords : List CellCoordinates) :
      HintStep s { s with hintCells := hAutoHint s noData eligible coords }
  | hintButton (s : HState) (coords : List CellCoordinates)
      (hdiff : s.difficulty ≠ .impossible) (hload : s.loading = false)
      (herr : s.errored = false) (hempty : s.hintCells = []) :
      HintStep s { s with hintCells := if coords = [] then s.hintCells else coords }
  | clearHints (s : HState) :
      HintStep s { s with hintCells := [] }
  | playMode (s : HState) (d : DifficultyLevel) :
      HintStep s { s with difficulty := d, loading := true, hintCells := [] }

/-- The hook's initial render state: difficulty `normal`, loading, no
error, no hints (`gameHooks.ts` lines 41-77). -/
def hInit : HState := ⟨.normal, true, false, []⟩

/-- States reachable from the initial render state through the hint-
relevant transitions. -/
inductive HintReachable : HState → Prop where
  | init : HintReachable hInit
  | step {s t : HState} (hr : HintReachable s) (hs : HintStep s t) :
      HintReachable t

/-- Inductive invariant of the hint system: hints are never displayed on
impossible difficulty, nor while a load is in flight. -/
def HintInv (s : HState) : Prop :=
  (s.difficulty = .impossible → s.hintCells = []) ∧
  (s.loading = true → s.hintCells = [])

theorem hintInv_init : HintInv hInit := by
  constructor <;> intro h <;> rfl

theorem hintInv_step {s t : HState} (hinv : HintInv s) (hs : HintStep s t) :
    HintInv t := by
  obtain ⟨h1, h2⟩ := hinv
  cases hs with
  | initDifficulty d hload =>
      have he : s.hintCells = [] := h2 hload
      exact ⟨fun _ => he, fun _ => he⟩
  | loadStart => exact ⟨fun _ => rfl, fun _ => rfl⟩
  | loadFinish e =>
      exact ⟨fun hd => h1 hd, fun hl => by simp at hl⟩
  | autoHint noData eligible coords =>
      unfold hAutoHint
      constructor <;> intro h <;> simp only at h ⊢
      · split
        · rfl
        · next hcond =>
            split
            · next hc =>
                exact absurd h (by push_neg at hcond; simp [hcond.1])
            · exact h1 h
      · split
        · rfl
        · split
          · next hc => simp [h] at hc
          · exact h2 h
  | hintButton coords hdiff hload herr hempty =>
      constructor <;> intro h <;> simp only at h ⊢
      · exact absurd h hdiff
      · rw [hload] at h; simp at h
  | clearHints => exact ⟨fun _ => rfl, fun _ => rfl⟩
  | playMode d => exact ⟨fun _ => rfl, fun _ => rfl⟩

theorem hintInv_reachable {s : HState} (hr : HintReachable s) : HintInv s := by
  induction hr with
  | init => exact hintInv_init
  | step hr hs ih => exact hintInv_step ih hs

theorem rejected_attempt_eq (s : CoreGameState)
    (p : CellCoordinates × CellCoordinates) (h : attemptRejected s p) :
    attemptState s p = bumpFailed s := by
  by_cases hgo : s.isGameOver
  · simp [attemptState, corePerformSwap, hgo]
  · by_cases hadj : areAdjacent p.1 p.2
    · cases hfc : findMatchingChild s.currentNode p.1 p.2 with
      | none => simp [attemptState, corePerformSwap, hgo, hadj, hfc]
      | some mc =>
          exfalso
          simp [attemptRejected, corePerformSwap, hgo, hadj, hfc] at h
    · simp [attemptState, corePerformSwap, hgo, hadj]

theorem rejected_counter_succ (s : CoreGameState)
    (p : CellCoordinates × CellCoordinates) (h : attemptRejected s p) :
    (attemptState s p).turnFailedAttempts = s.turnFailedAttempts + 1 := by
  rw [rejected_attempt_eq s p h]; rfl

theorem rejected_node_eq (s : CoreGameState)
    (p : CellCoordinates × CellCoordinates) (h : attemptRejected s p) :
    (attemptState s p).currentNode = s.currentNode := by
  rw [rejected_attempt_eq s p h]; rfl

theorem bestChild_isSome {cs : List (Move × ExplorationNode)} (h : cs ≠ []) :
    (bestChild cs).isSome = true := by
  cases cs with
  | nil => exact absurd rfl h
  | cons c rest => simp [bestChild]

theorem calculateHintCoordinates_ne_nil {n : ExplorationNode}
    (h : isLeaf n = false) : calculateHintCoordinates n ≠ [] := by
  unfold calculateHintCoordinates
  have hne : nodeChildren n ≠ [] := by
    intro hnil
    rw [isLeaf, hnil] at h
    simp at h
  cases hbc : bestChild (nodeChildren n) with
  | none =>
      have := bestChild_isSome hne
      rw [hbc] at this
      simp at this
  | some c => simp [hbc]

/-- The single child move of the sample level: swapping (0,0) and (0,1)
forms "CATS" and reaches the level's only leaf at depth 1. -/
def catsMove : Move := { cellA := ⟨0, 0⟩, cellB := ⟨0, 1⟩, words := ["CATS"] }

/-- The sample exploration tree of the §8 scenario: one child move, leaf
at depth 1. -/
def catsTree : ExplorationNode := .mk [(catsMove, .mk [])]

/-- Sample level payload used by the concrete witnesses. -/
def sampleGameData : GameData :=
  { initialGrid := [['c', 'a'], ['t', 's']], explorationTree := catsTree,
    wordLength := 4, maxDepthReached := 1 }

/-- Fresh core state at the root of the sample level. -/
def sampleCore : CoreGameState :=
  { grid := sampleGameData.initialGrid, currentNode := catsTree,
    currentDepth := 0, history := [], hasDeviated := false,
    turnFailedAttempts := 0, isGameOver := false, gameData := sampleGameData }

/-- Baseline React state for the witnesses: level loaded, idle, nothing
transient showing. -/
def baseUI : UIState :=
  { loading := false, error := none, currentDate := some "2025-06-01",
    difficulty := .normal, dailyProgress := ⟨false, false, false⟩,
    grid := sampleGameData.initialGrid, currentPossibleMoves := [catsMove],
    currentDepth := 0, history := [], hasDeviated := false,
    turnFailedAttempts := 0, isCoreGameOver := false,
    coreGameData := some sampleGameData, selectedCell := none,
    draggedCell := none, hoveredCell := none, isInvalidMove := false,
    invalidMoveMessage := "", animating := false, hintCells := [],
    isDisplayGameOver := false, hasAcknowledgedGameOver := false,
    showEndGamePanelOverride := false }

/-- The empty daily-progress store. -/
def emptyStore : Storage := fun _ _ => none

/-- C6: while an animation/transition from a previous swap is still
settling — and likewise while loading, in error state, or while the
game-over display is up — every new swap attempt through the hook's
`performSwap` is ignored: the core engine is never invoked and neither
the React state nor the core state changes. -/
theorem c6_swap_ignored_while_settling (ui : UIState) (core : CoreGameState)
    (c1 c2 : CellCoordinates)
    (h : ui.animating = true ∨ ui.loading = true ∨ ui.error.isSome = true ∨
         ui.isDisplayGameOver = true) :
    hookPerformSwap ui core c1 c2 = ⟨false, ui, core, false⟩ := by
  unfold hookPerformSwap
  rw [if_pos]
  rcases h with h | h | h | h <;> simp [h]

/-- C6 witness: with the settle animation of a previous swap still
running, a swap attempt changes nothing and never reaches the core. -/
theorem c6_witness :
    hookPerformSwap { baseUI with animating := true } sampleCore ⟨0, 0⟩ ⟨0, 1⟩ =
      ⟨false, { baseUI with animating := true }, sampleCore, false⟩ :=
  c6_swap_ignored_while_settling { baseUI with animating := true } sampleCore
    ⟨0, 0⟩ ⟨0, 1⟩ (Or.inl rfl)

/-- C7: the calling layer enforces progression gating on difficulty
switches — `hard` is rejected with a message unless normal is complete,
`impossible` is rejected unless both normal and hard are complete, and a
rejected switch changes nothing besides the transient invalid-move
indicator (in particular no grid, history, depth, difficulty or core
data); when the gate is satisfied the switch is accepted. -/
theorem c7_progression_gating (ui : UIState) (d : DifficultyLevel)
    (hov : ui.showEndGamePanelOverride = false) (hdiff : ui.difficulty ≠ d)
    (hanim : ui.animating = false) (herr : ui.error = none) :
    (d = .hard ∧ ui.dailyProgress.normal = false →
      handlePlayMode ui d =
        (.rejected "Complete Normal mode first!",
         { ui with isInvalidMove := true,
                   invalidMoveMessage := "Complete Normal mode first!" })) ∧
    (d = .impossible ∧
        (ui.dailyProgress.normal = false ∨ ui.dailyProgress.hard = false) →
      handlePlayMode ui d =
        (.rejected "Complete Normal & Hard modes first!",
         { ui with isInvalidMove := true,
                   invalidMoveMessage := "Complete Normal & Hard modes first!" })) ∧
    (d = .hard ∧ ui.dailyProgress.normal = true →
      (handlePlayMode ui d).1 = .accepted) ∧
    (d = .impossible ∧ ui.dailyProgress.normal = true ∧
        ui.dailyProgress.hard = true →
      (handlePlayMode ui d).1 = .accepted) := by
  refine ⟨?_, ?_, ?_, ?_⟩
  · rintro ⟨rfl, hn⟩
    simp [handlePlayMode, hov, hdiff, hanim, herr, hn]
  · rintro ⟨rfl, hnh⟩
    rcases hnh with hn | hh
    · simp [handlePlayMode, hov, hdiff, hanim, herr, hn]
    · by_cases hn : ui.dailyProgress.normal = true
      · simp [handlePlayMode, hov, hdiff, hanim, herr, hn, hh]
      · simp only [Bool.not_eq_true] at hn
        simp [handlePlayMode, hov, hdiff, hanim, herr, hn]
  · rintro ⟨rfl, hn⟩
    simp [handlePlayMode, hov, hdiff, hanim, herr, hn]
  · rintro ⟨rfl, hn, hh⟩
    simp [handlePlayMode, hov, hdiff, hanim, herr, hn, hh]

/-- C7 witness: with normal mode not completed, switching to hard is
rejected with the gating message and the state is unchanged except for
the transient indicator. -/
theorem c7_witness :
    handlePlayMode baseUI .hard =
      (.rejected "Complete Normal mode first!",
       { baseUI with isInvalidMove := true,
                     invalidMoveMessage := "Complete Normal mode first!" }) :=
  (c7_progression_gating baseUI .hard rfl (by decide) rfl rfl).1 ⟨rfl, rfl⟩

/-- C9: in every reachable hook state with difficulty `impossible`, the
set of displayed hint cells is empty — the automatic hint effect clears
hints and returns early on impossible difficulty, and the hint button
handler never computes hint coordinates there. -/
theorem c9_no_hints_on_impossible (s : HState) (hr : HintReachable s)
    (hd : s.difficulty = .impossible) : s.hintCells = [] :=
  (hintInv_reachable hr).1 hd

/-- C9 witness: the state reached by initialising the difficulty straight
to impossible shows no hints. -/
theorem c9_witness :
    (⟨.impossible, true, false, []⟩ : HState).hintCells = [] :=
  c9_no_hints_on_impossible ⟨.impossible, true, false, []⟩
    (HintReachable.step HintReachable.init
      (HintStep.initDifficulty hInit .impossible rfl))
    rfl

/-- C10: in the end-game panel a level counts as completed iff the
achieved score equals the maximum score — `score = maxScore` for stored
summaries, and additionally `maxScore > 0` for the live row — so a
game-over below the maximum depth is not completion. -/
theorem c10_completion_criterion :
    (∀ s : LevelCompletionSummary,
      (resultFromSummary s).levelCompleted = true ↔ s.score = s.maxScore) ∧
    (∀ ui : UIState,
      (liveDataForCurrentDifficulty ui).levelCompleted = true ↔
        (ui.currentDepth = liveMaxDepthAttainable ui ∧
         0 < liveMaxDepthAttainable ui)) ∧
    (∀ ui : UIState, ui.currentDepth < liveMaxDepthAttainable ui →
      (liveDataForCurrentDifficulty ui).levelCompleted = false) := by
  refine ⟨fun s => ?_, fun ui => ?_, fun ui h => ?_⟩
  · simp [resultFromSummary]
  · simp [liveDataForCurrentDifficulty]
  · simp [liveDataForCurrentDifficulty]
    intro heq
    omega

/-- C10 witness: a live row one short of a positive maximum is game-over
data but not completed. -/
theorem c10_witness :
    (liveDataForCurrentDifficulty
      { baseUI with isCoreGameOver := true, isDisplayGameOver := true }).levelCompleted = false :=
  c10_completion_criterion.2.2
    { baseUI with isCoreGameOver := true, isDisplayGameOver := true }
    (by decide)

/-- C4: a fetched level payload whose initial grid is missing or
malformed is rejected with the corrupted-level condition naming the
difficulty, and the catch handler reports that message to the caller
while degrading the hook to the safe fresh defaults (empty mirror state,
no game-over display, loading ended) rather than leaving a broken
grid. -/
theorem c4_corrupted_level (diff : String) (ui : UIState)
    (fetched : Option FetchedGameData) (h : malformedPayload fetched) :
    validateLevelPayload diff fetched =
      .error ("Level data for " ++ diff ++ " is corrupted.") ∧
    (loadFailureState ui ("Level data for " ++ diff ++ " is corrupted.")).error =
      some ("Level data for " ++ diff ++ " is corrupted.") ∧
    (loadFailureState ui ("Level data for " ++ diff ++ " is corrupted.")).grid = [[]] ∧
    (loadFailureState ui ("Level data for " ++ diff ++ " is corrupted.")).history = [] ∧
    (loadFailureState ui ("Level data for " ++ diff ++ " is corrupted.")).currentDepth = 0 ∧
    (loadFailureState ui ("Level data for " ++ diff ++ " is corrupted.")).isCoreGameOver = false ∧
    (loadFailureState ui ("Level data for " ++ diff ++ " is corrupted.")).coreGameData = none ∧
    (loadFailureState ui ("Level data for " ++ diff ++ " is corrupted.")).isDisplayGameOver = false ∧
    (loadFailureState ui ("Level data for " ++ diff ++ " is corrupted.")).loading = false := by
  refine ⟨?_, rfl, rfl, rfl, rfl, rfl, rfl, rfl, rfl⟩
  rcases h with h | h | h <;> subst h <;> rfl

/-- C4 witness: a payload whose `initialGrid` field is not an array is
rejected as corrupted and the hook lands in the safe fresh state. -/
theorem c4_witness :
    validateLevelPayload "normal" (some ⟨some .nonArray⟩) =
      .error ("Level data for " ++ "normal" ++ " is corrupted.") ∧
    (loadFailureState baseUI ("Level data for " ++ "normal" ++ " is corrupted.")).grid = [[]] :=
  ⟨(c4_corrupted_level "normal" baseUI (some ⟨some .nonArray⟩)
      (Or.inr (Or.inr rfl))).1,
   (c4_corrupted_level "normal" baseUI (some ⟨some .nonArray⟩)
      (Or.inr (Or.inr rfl))).2.2.1⟩

/-- C2: three consecutive rejected swap attempts with no successful swap,
undo or reset in between (so the per-turn counter starts at 0 and the
tree node never moves) leave `turnFailedAttempts = 3`; the hint
eligibility condition of the automatic hint effect then holds, and with
the effect's outer guards satisfied the hint coordinates of the current
node are computed, non-empty, and become the displayed hint cells. -/
theorem c2_three_failed_attempts_show_hint (s0 : CoreGameState)
    (p1 p2 p3 : CellCoordinates × CellCoordinates) (ui : UIState)
    (h0 : s0.turnFailedAttempts = 0)
    (hleaf : isLeaf s0.currentNode = false)
    (h1 : attemptRejected s0 p1)
    (h2 : attemptRejected (attemptState s0 p1) p2)
    (h3 : attemptRejected (attemptState (attemptState s0 p1) p2) p3)
    (hui : ui.turnFailedAttempts =
      (attemptState (attemptState (attemptState s0 p1) p2) p3).turnFailedAttempts)
    (hdiff : ui.difficulty ≠ .impossible) (herr : ui.error = none)
    (hdata : ui.coreGameData.isSome = true)
    (hdisp : ui.isDisplayGameOver = false)
    (hov : ui.showEndGamePanelOverride = false)
    (hload : ui.loading = false) (hg1 : 0 < ui.grid.length)
    (hg2 : 0 < (ui.grid.headD []).length) :
    (attemptState (attemptState (attemptState s0 p1) p2) p3).turnFailedAttempts = 3 ∧
    (attemptState (attemptState (attemptState s0 p1) p2) p3).currentNode = s0.currentNode ∧
    hintEligible ui = true ∧
    autoHintEffect ui (calculateHintCoordinates s0.currentNode) =
      calculateHintCoordinates s0.currentNode ∧
    calculateHintCoordinates s0.currentNode ≠ [] := by
  have e1 : (attemptState s0 p1).turnFailedAttempts = 1 := by
    rw [rejected_counter_succ s0 p1 h1, h0]
  have e2 : (attemptState (attemptState s0 p1) p2).turnFailedAttempts = 2 := by
    rw [rejected_counter_succ _ p2 h2, e1]
  have e3 : (attemptState (attemptState (attemptState s0 p1) p2) p3).turnFailedAttempts = 3 := by
    rw [rejected_counter_succ _ p3 h3, e2]
  have hnode : (attemptState (attemptState (attemptState s0 p1) p2) p3).currentNode =
      s0.currentNode := by
    rw [rejected_node_eq _ p3 h3, rejected_node_eq _ p2 h2,
      rejected_node_eq _ p1 h1]
  have hcount : 3 ≤ ui.turnFailedAttempts := by rw [hui, e3]
  have hne := calculateHintCoordinates_ne_nil hleaf
  have herr' : ¬ ui.error.isSome = true := by simp [herr]
  have hdata' : ¬ ui.coreGameData.isNone = true := by
    cases hcd : ui.coreGameData with
    | none => rw [hcd] at hdata; simp at hdata
    | some g => simp
  have hdisp' : ¬ ui.isDisplayGameOver = true := by simp [hdisp]
  have hov' : ¬ ui.showEndGamePanelOverride = true := by simp [hov]
  have hload' : ¬ ui.loading = true := by simp [hload]
  refine ⟨e3, hnode, ?_, ?_, hne⟩
  · simp [hintEligible, hcount, hdisp, hov, hload, hg1,
      List.headD_eq_head? ui.grid ([] : List Char) ▸ hg2]
  · unfold autoHintEffect
    rw [if_neg (by push_neg; exact ⟨hdiff, herr', hdata'⟩),
      if_pos ⟨hcount, hdisp', hov', hload', hg1, hg2⟩, if_pos hne]

/-- C2 witness: on the sample level, three diagonal (hence rejected)
swap attempts from a fresh state leave the counter at 3 and make the
automatic hint effect display the root's hint move. -/
theorem c2_witness :
    (attemptState (attemptState (attemptState sampleCore (⟨0, 0⟩, ⟨1, 1⟩)) (⟨0, 0⟩, ⟨1, 1⟩)) (⟨0, 0⟩, ⟨1, 1⟩)).turnFailedAttempts = 3 ∧
    (attemptState (attemptState (attemptState sampleCore (⟨0, 0⟩, ⟨1, 1⟩)) (⟨0, 0⟩, ⟨1, 1⟩)) (⟨0, 0⟩, ⟨1, 1⟩)).currentNode = sampleCore.currentNode ∧
    hintEligible { baseUI with turnFailedAttempts := 3 } = true ∧
    autoHintEffect { baseUI with turnFailedAttempts := 3 }
      (calculateHintCoordinates sampleCore.currentNode) =
      calculateHintCoordinates sampleCore.currentNode ∧
    calculateHintCoordinates sampleCore.currentNode ≠ [] :=
  c2_three_failed_attempts_show_hint sampleCore (⟨0, 0⟩, ⟨1, 1⟩) (⟨0, 0⟩, ⟨1, 1⟩)
    (⟨0, 0⟩, ⟨1, 1⟩) { baseUI with turnFailedAttempts := 3 }
    rfl rfl rfl rfl rfl rfl (by decide) rfl rfl rfl rfl rfl
    (by decide) (by decide)

/-- Finished-but-not-maximal state: the game-over display is up and
unacknowledged at depth 0 on a level whose maximum depth is 1 (a leaf
reached below the maximum). -/
def uiStuckGameOver : UIState :=
  { baseUI with isDisplayGameOver := true, isCoreGameOver := true }

/-- C1 counterexample: a finished game (game-over display up, not yet
acknowledged, level data loaded, nothing blocking) whose score is below
the maximum produces NO daily completion summary — the summary effect
leaves the store untouched, so a summary is not produced for every
finished game. -/
theorem c1_counterexample :
    uiStuckGameOver.isDisplayGameOver = true ∧
    uiStuckGameOver.hasAcknowledgedGameOver = false ∧
    uiStuckGameOver.showEndGamePanelOverride = false ∧
    uiStuckGameOver.loading = false ∧
    uiStuckGameOver.error = none ∧
    uiStuckGameOver.coreGameData.isSome = true ∧
    saveSummaryEffect uiStuckGameOver emptyStore = emptyStore :=
  ⟨rfl, rfl, rfl, rfl, rfl, rfl, rfl⟩

/-- C1 (amended): at game-over, while unacknowledged and with no override
panel, no loading and no error, a daily completion summary
`{history, score, maxScore, playerWords, optimalPathWords,
difficultyForSummary, finalGrid}` is produced exactly when the score
equals the positive maximum attainable depth and no completed summary is
stored yet; it is written under the current calendar-date key and
difficulty, and every other date key and difficulty entry is left
unchanged. -/
theorem c1_summary_saved (ui : UIState) (store : Storage) (dateKey : String)
    (hdate : ui.currentDate = some dateKey)
    (hcan : canSaveSummary ui = true)
    (hnew : (match store dateKey ui.difficulty with
             | some e => e.completed && e.summary.isSome
             | none => false) = false) :
    saveSummaryEffect ui store dateKey ui.difficulty =
      some ⟨true, some (mkSummary ui)⟩ ∧
    (∀ d, d ≠ dateKey → saveSummaryEffect ui store d = store d) ∧
    (∀ diff, diff ≠ ui.difficulty →
      saveSummaryEffect ui store dateKey diff = store dateKey diff) := by
  unfold saveSummaryEffect
  rw [hdate]
  simp only [hcan, if_true, hnew, Bool.false_eq_true, if_false]
  refine ⟨?_, ?_, ?_⟩
  · trivial
  · intro d hd
    rw [if_neg hd]
  · intro diff hdiff
    rw [if_neg hdiff]

/-- State used by the C1 witness: the sample level finished at its
maximum depth, game over displayed and not yet acknowledged. -/
def uiCompletedGame : UIState :=
  { baseUI with isDisplayGameOver := true, isCoreGameOver := true,
                currentDepth := 1,
                history := [{ move := (⟨0, 0⟩, ⟨0, 1⟩),
                              wordsFormedByMove := ["CATS"],
                              gridAfterMove := [['a', 'c'], ['t', 's']] }],
                grid := [['a', 'c'], ['t', 's']] }

/-- C1 witness: on the completed sample level the summary effect stores
the completed entry with the built summary under the date key and the
current difficulty. -/
theorem c1_witness :
    saveSummaryEffect uiCompletedGame emptyStore "2025-06-01"
        uiCompletedGame.difficulty =
      some ⟨true, some (mkSummary uiCompletedGame)⟩ :=
  (c1_summary_saved uiCompletedGame emptyStore "2025-06-01" rfl (by decide)
    rfl).1

/-- C3 counterexample: the daily-completion record shows the level
finished, but the restore produced a fresh state with no non-reset saved
progress — the load decision does NOT invoke `forceGameOver`, the final
state is not terminal, and no game-over display comes up, so the claim's
unconditional "forceGameOver is invoked on load when the record shows
the level finished" fails. -/
theorem c3_counterexample :
    (loadGameOverDecision sampleCore none true).forcedInvoked = false ∧
    (loadGameOverDecision sampleCore none true).finalCore.isGameOver = false ∧
    (loadGameOverDecision sampleCore none true).isDisplayGameOver = false :=
  ⟨rfl, rfl, rfl⟩

/-- C3 (amended): on level load with the daily-completion record showing
the level finished, IF additionally a non-reset in-progress save (depth
> 0 or non-empty history) was restored or the restored core state is
already game over, then the state is made terminal — `forceGameOver` is
invoked exactly when the restored state was not already game over — with
`grid`, `history` and `currentDepth` unaltered, and the game-over
display comes up already acknowledged so the player need not replay;
after a reset (no non-reset save), the completed level instead loads
fresh and playable. -/
theorem c3_force_game_over_on_load (initialCore : CoreGameState)
    (saved : Option SavedProgress)
    (h : (∃ sp, saved = some sp ∧ (0 < sp.currentDepth ∨ sp.history ≠ [])) ∨
         initialCore.isGameOver = true) :
    (loadGameOverDecision initialCore saved true).finalCore.isGameOver = true ∧
    (loadGameOverDecision initialCore saved true).finalCore.grid =
      initialCore.grid ∧
    (loadGameOverDecision initialCore saved true).finalCore.history =
      initialCore.history ∧
    (loadGameOverDecision initialCore saved true).finalCore.currentDepth =
      initialCore.currentDepth ∧
    (loadGameOverDecision initialCore saved true).isDisplayGameOver = true ∧
    (loadGameOverDecision initialCore saved true).hasAcknowledgedGameOver = true ∧
    (loadGameOverDecision initialCore saved true).forcedInvoked =
      !initialCore.isGameOver := by
  rcases h with ⟨sp, hsp, hnr⟩ | hgo
  · subst hsp
    by_cases hgo : initialCore.isGameOver
    · simp [loadGameOverDecision, hnr, hgo, forceGameOver]
    · simp [loadGameOverDecision, hnr, hgo, forceGameOver]
  · simp [loadGameOverDecision, hgo, forceGameOver]

/-- C3 witness: a completed daily record plus a non-reset saved run at
depth 1 forces the restored fresh state terminal without touching grid,
history or depth. -/
theorem c3_witness :
    (loadGameOverDecision sampleCore
        (some { grid := sampleGameData.initialGrid,
                history := [], currentDepth := 1, hasDeviated := false,
                turnFailedAttempts := 0 }) true).finalCore.isGameOver = true ∧
    (loadGameOverDecision sampleCore
        (some { grid := sampleGameData.initialGrid,
                history := [], currentDepth := 1, hasDeviated := false,
                turnFailedAttempts := 0 }) true).finalCore.currentDepth =
      sampleCore.currentDepth :=
  ⟨(c3_force_game_over_on_load sampleCore _
      (Or.inl ⟨_, rfl, Or.inl (by decide)⟩)).1,
   (c3_force_game_over_on_load sampleCore _
      (Or.inl ⟨_, rfl, Or.inl (by decide)⟩)).2.2.2.1⟩

/-- State in which a drag is in progress while the mirrored core
game-over flag is already set (the game-over display has not come up
yet). -/
def uiDragStaleGameOver : UIState :=
  { baseUI with draggedCell := some ⟨0, 0⟩, isCoreGameOver := true }

/-- C5 counterexample: a non-adjacent drop processed while the mirrored
core game-over flag is set fails SILENTLY — no adjacency-specific
message and no invalid-move indicator — so the claim's "always fails
with an adjacency-specific message" does not hold as stated. -/
theorem c5_counterexample :
    areAdjacent ⟨0, 0⟩ ⟨1, 1⟩ = false ∧
    (handleDrop uiDragStaleGameOver sampleCore ⟨1, 1⟩).ui.isInvalidMove = false ∧
    (handleDrop uiDragStaleGameOver sampleCore ⟨1, 1⟩).ui.invalidMoveMessage = "" ∧
    (handleDrop uiDragStaleGameOver sampleCore ⟨1, 1⟩).coreInvoked = false :=
  ⟨rfl, rfl, rfl, rfl⟩

/-- C5 (amended): a swap attempt at a non-adjacent pair — through the
drop path or the core `performSwap` — always fails and never mutates
`grid`, `history` or `currentDepth`; the adjacency-specific message
"Must swap adjacent cells." is surfaced when the (mirrored) game-over
flag is false, while at game-over the drop path rejects silently and
the core rejects with the game-over message instead. -/
theorem c5_nonadjacent_swap_rejected (ui : UIState) (core : CoreGameState)
    (src target : CellCoordinates)
    (hdrag : ui.draggedCell = some src)
    (hov : ui.showEndGamePanelOverride = false)
    (hdisp : ui.isDisplayGameOver = false)
    (hload : ui.loading = false) (hanim : ui.animating = false)
    (herr : ui.error = none)
    (hsrc : src ≠ target)
    (hadj : areAdjacent src target = false) :
    (handleDrop ui core target).coreInvoked = false ∧
    (handleDrop ui core target).core = core ∧
    (handleDrop ui core target).ui.grid = ui.grid ∧
    (handleDrop ui core target).ui.history = ui.history ∧
    (handleDrop ui core target).ui.currentDepth = ui.currentDepth ∧
    (ui.isCoreGameOver = false →
      (handleDrop ui core target).ui.isInvalidMove = true ∧
      (handleDrop ui core target).ui.invalidMoveMessage =
        "Must swap adjacent cells." ∧
      (handleDrop ui core target).wiggled = true) ∧
    (corePerformSwap core src target).1.success = false ∧
    (core.isGameOver = false →
      (corePerformSwap core src target).1.message =
        some "Must swap adjacent cells.") ∧
    (corePerformSwap core src target).2.grid = core.grid ∧
    (corePerformSwap core src target).2.history = core.history ∧
    (corePerformSwap core src target).2.currentDepth = core.currentDepth := by
  have hguard : ¬ (ui.showEndGamePanelOverride = true ∨
      ui.isDisplayGameOver = true ∨ ui.draggedCell.isNone = true ∨
      ui.loading = true ∨ ui.animating = true ∨ ui.error.isSome = true) := by
    push_neg
    exact ⟨by simp [hov], by simp [hdisp], by simp [hdrag], by simp [hload],
      by simp [hanim], by simp [herr]⟩
  have hcore : (corePerformSwap core src target).1.success = false ∧
      (core.isGameOver = false →
        (corePerformSwap core src target).1.message =
          some "Must swap adjacent cells.") ∧
      (corePerformSwap core src target).2.grid = core.grid ∧
      (corePerformSwap core src target).2.history = core.history ∧
      (corePerformSwap core src target).2.currentDepth = core.currentDepth := by
    by_cases hgo : core.isGameOver
    · simp [corePerformSwap, hgo, bumpFailed]
    · simp [corePerformSwap, hgo, hadj, bumpFailed]
  have hdrop : (handleDrop ui core target).coreInvoked = false ∧
      (handleDrop ui core target).core = core ∧
      (handleDrop ui core target).ui.grid = ui.grid ∧
      (handleDrop ui core target).ui.history = ui.history ∧
      (handleDrop ui core target).ui.currentDepth = ui.currentDepth ∧
      (ui.isCoreGameOver = false →
        (handleDrop ui core target).ui.isInvalidMove = true ∧
        (handleDrop ui core target).ui.invalidMoveMessage =
          "Must swap adjacent cells." ∧
        (handleDrop ui core target).wiggled = true) := by
    unfold handleDrop
    rw [if_neg hguard]
    simp only [hdrag, Option.getD_some]
    rw [if_neg hsrc, if_pos (by simp [hadj])]
    by_cases hcgo : ui.isCoreGameOver
    · rw [if_neg (by simp [hcgo])]
      exact ⟨rfl, rfl, rfl, rfl, rfl, fun hc => by rw [hc] at hcgo; cases hcgo⟩
    · rw [if_pos (by simp [hcgo])]
      exact ⟨rfl, rfl, rfl, rfl, rfl, fun _ => ⟨rfl, rfl, rfl⟩⟩
  exact ⟨hdrop.1, hdrop.2.1, hdrop.2.2.1, hdrop.2.2.2.1, hdrop.2.2.2.2.1,
    hdrop.2.2.2.2.2, hcore.1, hcore.2.1, hcore.2.2.1, hcore.2.2.2.1,
    hcore.2.2.2.2⟩

/-- C5 witness: during active play, a diagonal drop is rejected with the
adjacency message, wiggles, and reaches neither the core nor any of
grid, history or depth. -/
theorem c5_witness :
    (handleDrop { baseUI with draggedCell := some ⟨0, 0⟩ } sampleCore
        ⟨1, 1⟩).coreInvoked = false ∧
    (handleDrop { baseUI with draggedCell := some ⟨0, 0⟩ } sampleCore
        ⟨1, 1⟩).ui.invalidMoveMessage = "Must swap adjacent cells." :=
  ⟨(c5_nonadjacent_swap_rejected { baseUI with draggedCell := some ⟨0, 0⟩ }
      sampleCore ⟨0, 0⟩ ⟨1, 1⟩ rfl rfl rfl rfl rfl rfl (by decide) rfl).1,
   ((c5_nonadjacent_swap_rejected { baseUI with draggedCell := some ⟨0, 0⟩ }
      sampleCore ⟨0, 0⟩ ⟨1, 1⟩ rfl rfl rfl rfl rfl rfl (by decide) rfl).2.2.2.2.2.1
      rfl).2.1⟩

theorem rejected_result_shape (s : CoreGameState) (c1 c2 : CellCoordinates)
    (h : (corePerformSwap s c1 c2).1.success = false) :
    (corePerformSwap s c1 c2).1.newState = none ∧
    (corePerformSwap s c1 c2).2 = bumpFailed s := by
  by_cases hgo : s.isGameOver
  · simp [corePerformSwap, hgo]
  · by_cases hadj : areAdjacent c1 c2
    · cases hfc : findMatchingChild s.currentNode c1 c2 with
      | none => simp [corePerformSwap, hgo, hadj, hfc]
      | some mc => simp [corePerformSwap, hgo, hadj, hfc] at h
    · simp [corePerformSwap, hgo, hadj]

/-- Mirror state of a stale game-over: the core and its React mirror are
game over but the game-over display has not come up yet. -/
def uiStaleMirror : UIState := { baseUI with isCoreGameOver := true }

/-- Core state of the sample level already at game over. -/
def coreAtGameOver : CoreGameState := { sampleCore with isGameOver := true }

/-- C8 counterexample: a swap rejected while the mirrored core game-over
flag is set triggers NO invalid-move indicator at all — no message is
shown for this rejected swap — so the claim's "every rejected swap
triggers a transient invalid-move indicator carrying a human-readable
reason" does not hold as stated. -/
theorem c8_counterexample :
    (corePerformSwap coreAtGameOver ⟨0, 0⟩ ⟨0, 1⟩).1.success = false ∧
    (corePerformSwap coreAtGameOver ⟨0, 0⟩ ⟨0, 1⟩).1.message =
      some "Game is over." ∧
    (hookPerformSwap uiStaleMirror coreAtGameOver ⟨0, 0⟩ ⟨0, 1⟩).ui.isInvalidMove = false ∧
    (hookPerformSwap uiStaleMirror coreAtGameOver ⟨0, 0⟩ ⟨0, 1⟩).ui.invalidMoveMessage = "" ∧
    (hookPerformSwap uiStaleMirror coreAtGameOver ⟨0, 0⟩ ⟨0, 1⟩).wiggled = false :=
  ⟨rfl, rfl, rfl, rfl, rfl⟩

/-- C8 (amended): every rejected swap mutates no game state beyond
incrementing the per-turn failed-attempt counter (grid, history, depth
and the game-over flag are untouched); when the mirrored core game-over
flag is false the rejection triggers the transient invalid-move
indicator with the core's human-readable reason, and the "Game is over."
reason suppresses the wrong-move wiggle feedback while every other
reason triggers it; when the mirrored flag is true the rejection is
silent. -/
theorem c8_rejected_swap_feedback (ui : UIState) (core : CoreGameState)
    (c1 c2 : CellCoordinates)
    (hov : ui.showEndGamePanelOverride = false)
    (hdisp : ui.isDisplayGameOver = false)
    (hanim : ui.animating = false) (hload : ui.loading = false)
    (herr : ui.error = none) (hdata : ui.coreGameData.isSome = true)
    (hfail : (corePerformSwap core c1 c2).1.success = false) :
    (hookPerformSwap ui core c1 c2).core = bumpFailed core ∧
    (hookPerformSwap ui core c1 c2).ui.grid = core.grid ∧
    (hookPerformSwap ui core c1 c2).ui.history = core.history ∧
    (hookPerformSwap ui core c1 c2).ui.currentDepth = core.currentDepth ∧
    (hookPerformSwap ui core c1 c2).ui.isCoreGameOver = core.isGameOver ∧
    (ui.isCoreGameOver = false →
      (hookPerformSwap ui core c1 c2).ui.isInvalidMove = true ∧
      (hookPerformSwap ui core c1 c2).ui.invalidMoveMessage =
        (corePerformSwap core c1 c2).1.message.getD "Invalid Move!" ∧
      ((hookPerformSwap ui core c1 c2).wiggled = true ↔
        (corePerformSwap core c1 c2).1.message ≠ some "Game is over.")) ∧
    (ui.isCoreGameOver = true →
      (hookPerformSwap ui core c1 c2).ui.isInvalidMove = ui.isInvalidMove ∧
      (hookPerformSwap ui core c1 c2).ui.invalidMoveMessage =
        ui.invalidMoveMessage ∧
      (hookPerformSwap ui core c1 c2).wiggled = false) := by
  have hdata' : ¬ ui.coreGameData.isNone = true := by
    cases hcd : ui.coreGameData with
    | none => rw [hcd] at hdata; simp at hdata
    | some g => simp
  have hguard : ¬ (ui.showEndGamePanelOverride = true ∨
      ui.isDisplayGameOver = true ∨ ui.coreGameData.isNone = true ∨
      ui.animating = true ∨ ui.loading = true ∨ ui.error.isSome = true) := by
    push_neg
    exact ⟨by simp [hov], by simp [hdisp], hdata', by simp [hanim],
      by simp [hload], by simp [herr]⟩
  obtain ⟨hnone, hbump⟩ := rejected_result_shape core c1 c2 hfail
  by_cases hcgo : ui.isCoreGameOver
  · unfold hookPerformSwap
    rw [if_neg hguard]
    simp [hfail, hnone, hbump, hcgo, updateReactStateFromCore, bumpFailed]
  · unfold hookPerformSwap
    rw [if_neg hguard]
    simp [hfail, hnone, hbump, hcgo, updateReactStateFromCore, bumpFailed]

/-- C8 witness: during active play a diagonal swap attempt is rejected
with the adjacency reason shown in the indicator and the wiggle
firing, while grid, history and depth stay put. -/
theorem c8_witness :
    (hookPerformSwap baseUI sampleCore ⟨0, 0⟩ ⟨1, 1⟩).ui.isInvalidMove = true ∧
    (hookPerformSwap baseUI sampleCore ⟨0, 0⟩ ⟨1, 1⟩).ui.invalidMoveMessage =
      (corePerformSwap sampleCore ⟨0, 0⟩ ⟨1, 1⟩).1.message.getD "Invalid Move!" ∧
    (hookPerformSwap baseUI sampleCore ⟨0, 0⟩ ⟨1, 1⟩).ui.history =
      sampleCore.history :=
  ⟨((c8_rejected_swap_feedback baseUI sampleCore ⟨0, 0⟩ ⟨1, 1⟩ rfl rfl rfl rfl
      rfl rfl rfl).2.2.2.2.2.1 rfl).1,
   ((c8_rejected_swap_feedback baseUI sampleCore ⟨0, 0⟩ ⟨1, 1⟩ rfl rfl rfl rfl
      rfl rfl rfl).2.2.2.2.2.1 rfl).2.1,
   (c8_rejected_swap_feedback baseUI sampleCore ⟨0, 0⟩ ⟨1, 1⟩ rfl rfl rfl rfl
      rfl rfl rfl).2.2.1⟩

end Wordseq
